import Mathlib

/-!
Verification of the process-lifecycle supervisor and the `.env` configuration
store of the Z.AI API server control GUI (`gui.py`), against its design
specification.  The definitions below are shallow embeddings of the Python
functions `load_settings`, `save_settings`, `start_server`, `stop_server` and
`read_server_output` of class `ApiServerGUI`.
-/

namespace ZaiGui

/-! ## String helpers mirroring the Python string operations used in gui.py -/

/-- Python `s.strip()`: remove leading and trailing whitespace. -/
def pstrip (s : String) : String :=
  ⟨((s.data.dropWhile Char.isWhitespace).reverse.dropWhile Char.isWhitespace).reverse⟩

/-- Python `s.split('=', 1)[0]`: the text before the first `=`. -/
def keyPart (s : String) : String :=
  ⟨s.data.takeWhile (fun c => c ≠ '=')⟩

/-- Python `s.split('=', 1)[1]`: the text after the first `=`
(meaningful when `=` occurs in `s`). -/
def valPart (s : String) : String :=
  ⟨(s.data.dropWhile (fun c => c ≠ '=')).drop 1⟩

/-- Python `s.startswith('#')`. -/
def startsHash (s : String) : Bool :=
  match s.data with
  | '#' :: _ => true
  | _ => false

/-- Python `'=' in s`. -/
def containsEq (s : String) : Bool :=
  s.data.contains '='

/-- Python `s.lower()` (ASCII case folding, as used on `true`/`false` values). -/
def lowerStr (s : String) : String :=
  ⟨s.data.map Char.toLower⟩

/-! ## ConfigStore data model (gui.py:128-141, 267-340) -/

/-- The ten recognized environment keys, in definition order
(`_define_env_vars`, gui.py:130-141). -/
def envKeys : List String :=
  ["API_ENDPOINT", "AUTH_TOKEN", "SKIP_AUTH_TOKEN", "BACKUP_TOKEN",
   "LISTEN_PORT", "DEBUG_LOGGING", "THINKING_PROCESSING", "ANONYMOUS_MODE",
   "TOOL_SUPPORT", "SCAN_LIMIT"]

/-- Whether a key is boolean-typed (`'type': 'bool'` in `env_definitions`,
gui.py:133,136,138,139); the remaining keys hold strings (entry/combo widgets). -/
def isBoolKey (k : String) : Bool :=
  k == "SKIP_AUTH_TOKEN" || k == "DEBUG_LOGGING" || k == "ANONYMOUS_MODE" || k == "TOOL_SUPPORT"

/-- `key in self.config_vars`: the keys of `config_vars` are exactly `envKeys`
(gui.py:229-235). -/
def recognized (k : String) : Bool :=
  envKeys.contains k

/-- The value held by one tkinter variable in `config_vars`: a `BooleanVar`
for boolean-typed keys, a `StringVar` otherwise. -/
inductive ConfigVal where
  | bVal : Bool → ConfigVal
  | sVal : String → ConfigVal
deriving DecidableEq, Repr

/-- The `config_vars` mapping from key names to widget variables. -/
def Vars : Type := String → ConfigVal

/-- Serialization used by `save_settings` (gui.py:313-316,327-330):
`'true' if var.get() else 'false'` for a `BooleanVar`, else `var.get()`. -/
def serializeVal : ConfigVal → String
  | .bVal b => if b then "true" else "false"
  | .sVal s => s

/-- The condition of the line loops (gui.py:275, gui.py:309): the stripped
line is nonempty, does not start with `#`, and contains `=`. -/
def isKVLine (line : String) : Bool :=
  let l := pstrip line
  l ≠ "" && !startsHash l && containsEq l

/-- The key a key-value line binds: `stripped_line.split('=', 1)[0].strip()`
(gui.py:276-277, gui.py:310). -/
def lineKey (line : String) : String :=
  pstrip (keyPart (pstrip line))

/-- The value a key-value line binds: `line.split('=', 1)[1].strip()`
(gui.py:276-277). -/
def lineVal (line : String) : String :=
  pstrip (valPart (pstrip line))

/-- One iteration of the `load_settings` read loop (gui.py:273-277): a
key-value line appends a binding to `current_values` (dict assignment:
a later binding for the same key wins on lookup). -/
def loadLine (acc : List (String × String)) (line : String) : List (String × String) :=
  if isKVLine line then acc ++ [(lineKey line, lineVal line)] else acc

/-- The `current_values` dict built by the read loop of `load_settings`. -/
def currentValues (lines : List String) : List (String × String) :=
  lines.foldl loadLine []

/-- Python `d.get(k, dflt)` on the dict modelled as the (chronological) list
of assignments: the last binding for `k` wins. -/
def dictGet (d : List (String × String)) (k dflt : String) : String :=
  match (d.filter (fun p => p.1 == k)).getLast? with
  | some p => p.2
  | none => dflt

/-- Messages `load_settings` can log. -/
inductive LoadMsg where
  | loaded
  | warnMissing
deriving DecidableEq, Repr

/-- `load_settings` (gui.py:267-290).  `file` is the content of the `.env`
file as the list of its lines (`none` when opening raises
`FileNotFoundError`).  Returns the populated `config_vars` and the log
messages: a `BooleanVar` is set to `value.lower() == 'true'`, any other
variable to the raw value; an absent key defaults to `''` (gui.py:285-290). -/
def load_settings (file : Option (List String)) : Vars × List LoadMsg :=
  let cv : List (String × String) :=
    match file with
    | some lines => currentValues lines
    | none => []
  let msgs : List LoadMsg :=
    match file with
    | some _ => [.loaded]
    | none => [.warnMissing]
  (fun k =>
    let value := dictGet cv k ""
    if isBoolKey k then .bVal (lowerStr value == "true") else .sVal value,
   msgs)

/-- The line `f"{key}={value}\n"` written by `save_settings`
(gui.py:317, gui.py:331). -/
def mkLine (k : String) (v : ConfigVal) : String :=
  k ++ "=" ++ serializeVal v ++ "\n"

/-- The rewrite `save_settings` applies to one existing line
(gui.py:307-322): a key-value line whose key is in `config_vars` is replaced
by the canonical `KEY=value` line; every other line is preserved verbatim. -/
def rewriteLine (vars : Vars) (line : String) : String :=
  if isKVLine line && recognized (lineKey line) then
    mkLine (lineKey line) (vars (lineKey line))
  else line

/-- Whether a recognized key `k` ends up in `processed_keys` after the first
loop of `save_settings` (gui.py:304,318): some key-value line of the file
binds it. -/
def isProcessed (lines : List String) (k : String) : Bool :=
  lines.any (fun l => isKVLine l && (lineKey l == k))

/-- `save_settings` (gui.py:292-334): rewrite the existing lines (an absent
file reads as no lines, gui.py:297-301), then append a `KEY=value` line for
every key of `config_vars` (iterated in definition order) not seen in the
file. -/
def save_settings (vars : Vars) (lines : List String) : List String :=
  lines.map (rewriteLine vars) ++
    (envKeys.filter (fun k => !isProcessed lines k)).map (fun k => mkLine k (vars k))

/-- Case-insensitive string equality.  Modelled from the spec's words:
boolean keys are `case-insensitive on read`. -/
def eqIgnoringCase (a b : String) : Bool :=
  lowerStr a == lowerStr b

/-! ## ProcessSupervisor data model (gui.py:107-126, 354-401) -/

/-- Observer-level notifications and supervisor log entries (`log_message`).
`outLine s` is the delivery of one child output line, logged as
`f"[SERVER] {line.strip()}"` (gui.py:382): the payload is the stripped line,
the `[SERVER] ` tag is a constant prefix.  `terminated c` is the terminal
status event `f"服务已停止 (返回码: {return_code})"` (gui.py:386), carrying the
exit code.  `info` covers the remaining supervisor-generated status lines. -/
inductive Event where
  | outLine : String → Event
  | terminated : Int → Event
  | info : String → Event
deriving DecidableEq, Repr

/-- The supervisor state held by `ApiServerGUI` (gui.py:114-115): the flag
`is_server_running`, the handle `server_process` (an opaque pid), and the
sequence of emitted log events.  `hostAlive` records whether the hosting GUI
process is alive: none of `start_server`, `stop_server`,
`read_server_output` contains a host-exit call, so every operation
preserves it. -/
structure SupState where
  is_server_running : Bool
  server_process : Option Nat
  events : List Event
  hostAlive : Bool
deriving DecidableEq, Repr

/-- Number of exit-code-carrying terminal events in a log. -/
def countTerminated (es : List Event) : Nat :=
  (es.filter (fun e => match e with | .terminated _ => true | _ => false)).length

/-- Whether a spawn attempt succeeded. -/
def spawnOk (sp : Except String Nat) : Bool :=
  match sp with
  | .ok _ => true
  | .error _ => false

/-- `start_server` (gui.py:354-376).  `sp` is the outcome of
`subprocess.Popen` (gui.py:366-373): `.ok pid` on success, `.error msg` when
the spawn raises (e.g. `FileNotFoundError`).  The body has no exception
handler, so a spawn failure propagates to the caller synchronously, modelled
as the returned `Except.error`; `server_process` and `is_server_running` are
then left unassigned (the assignment at gui.py:366 never completes).  When
`is_server_running` is already true the whole body is skipped (gui.py:356). -/
def start_server (sp : Except String Nat) (s : SupState) : SupState × Except String Unit :=
  if s.is_server_running = false then
    let s1 := { s with events := s.events ++ [Event.info "正在启动服务..."] }
    match sp with
    | .error msg => (s1, .error msg)
    | .ok pid =>
        ({ s1 with is_server_running := true, server_process := some pid,
                   events := s1.events ++ [Event.info "服务已启动"] }, .ok ())
  else (s, .ok ())

/-- The process-control actions `stop_server` performs on the child, in
order: `terminate()` (gui.py:392), `wait(timeout=...)` (gui.py:394, with
whether the timeout expired), `kill()` (gui.py:398). -/
inductive StopAction where
  | termReq : StopAction
  | waitGrace : Nat → Bool → StopAction
  | kill : StopAction
deriving DecidableEq, Repr

/-- `stop_server` (gui.py:388-401).  `exitsWithinGrace` abstracts the child:
whether it terminates within the 5-second grace wait, i.e. whether
`wait(timeout=5)` returns rather than raising `TimeoutExpired`.  Returns the
new state and the ordered list of process-control actions performed.  In
both branches the flag is cleared and the handle released (gui.py:400-401);
after `kill()` the body performs no further wait (gui.py:396-399). -/
def stop_server (exitsWithinGrace : Bool) (s : SupState) : SupState × List StopAction :=
  if s.is_server_running && s.server_process.isSome then
    let s1 := { s with events := s.events ++ [Event.info "正在停止服务..."] }
    if exitsWithinGrace then
      ({ s1 with is_server_running := false, server_process := none,
                 events := s1.events ++ [Event.info "服务已成功停止。"] },
       [StopAction.termReq, StopAction.waitGrace 5 false])
    else
      ({ s1 with is_server_running := false, server_process := none,
                 events := s1.events ++
                   [Event.info "服务停止超时，正在强制终止...", Event.info "服务已被强制终止。"] },
       [StopAction.termReq, StopAction.waitGrace 5 true, StopAction.kill])
  else (s, [])

/-- `read_server_output` (gui.py:378-386), executed without interference
from `stop_server`.  `ls` is the sequence of strings successive `readline`
calls yield; `readline` returns `""` only at end of stream, so
`iter(self.server_process.stdout.readline, '')` delivers the lines up to
the first `""` (every real pre-end-of-stream line is nonempty).  After the
loop the stream is closed, the child is waited for (blocking until it fully
exits) yielding exit code `c`, the running flag is cleared and the terminal
status event is logged (gui.py:383-386).  When `server_process` is `None`
the body is skipped (gui.py:380). -/
def read_server_output (ls : List String) (c : Int) (s : SupState) : SupState :=
  match s.server_process with
  | none => s
  | some _ =>
      let delivered := ls.takeWhile (fun l => l != "")
      { s with
        is_server_running := false,
        events := s.events ++ delivered.map (fun l => Event.outLine (pstrip l)) ++
          [Event.terminated c] }

/-! ## Fine-grained interleaving of stop_server against the reader thread

`stop_server` runs on a GUI thread while `read_server_output` runs on its
own thread (gui.py:376); the shared fields `is_server_running` and
`server_process` are accessed by both with no synchronization.  The machine
below interleaves the individual statements of `stop_server` with those of
the reader's epilogue, in the scenario of the race claim: the child has
already exited on its own (so the reader has left its read loop, and the
main thread's grace wait returns immediately, taking the graceful branch). -/

/-- Program counter of the thread executing `stop_server` (gui.py:388-401),
one value per statement. -/
inductive MainPC where
  | idle
  | logStopping
  | termReq
  | waitGrace
  | logStopped
  | clearFlag
  | clearHandle
  | done
deriving DecidableEq, Repr

/-- Program counter of the reader thread past its read loop
(gui.py:383-386), one value per statement.  `crashed` is the thread dying
on an uncaught exception. -/
inductive ReaderPC where
  | closeStream
  | waitExit
  | clearFlag
  | emitTerm
  | done
  | crashed
deriving DecidableEq, Repr

/-- A configuration of the two racing threads over the shared state. -/
structure RaceConfig where
  st : SupState
  mainPC : MainPC
  readerPC : ReaderPC
  exitCode : Int
deriving DecidableEq, Repr

/-- One atomic step of the thread running `stop_server`.  The child has
already exited, so `terminate()` has no further effect and
`wait(timeout=5)` returns at once: the graceful branch (gui.py:393-395) is
taken. -/
def mainStep (c : RaceConfig) : RaceConfig :=
  match c.mainPC with
  | .idle =>
      if c.st.is_server_running && c.st.server_process.isSome then
        { c with mainPC := .logStopping }
      else
        { c with mainPC := .done }
  | .logStopping =>
      { c with st := { c.st with events := c.st.events ++ [Event.info "正在停止服务..."] },
               mainPC := .termReq }
  | .termReq => { c with mainPC := .waitGrace }
  | .waitGrace => { c with mainPC := .logStopped }
  | .logStopped =>
      { c with st := { c.st with events := c.st.events ++ [Event.info "服务已成功停止。"] },
               mainPC := .clearFlag }
  | .clearFlag =>
      { c with st := { c.st with is_server_running := false }, mainPC := .clearHandle }
  | .clearHandle =>
      { c with st := { c.st with server_process := none }, mainPC := .done }
  | .done => c

/-- One atomic step of the reader thread past its read loop.
`self.server_process.stdout.close()` (gui.py:383) and
`self.server_process.wait()` (gui.py:384) re-read the shared
`server_process` field: if the stop thread has already set it to `None`,
the attribute access raises `AttributeError` and the daemon thread dies
(`crashed`), executing none of its remaining statements. -/
def readerStep (c : RaceConfig) : RaceConfig :=
  match c.readerPC with
  | .closeStream =>
      match c.st.server_process with
      | some _ => { c with readerPC := .waitExit }
      | none => { c with readerPC := .crashed }
  | .waitExit =>
      match c.st.server_process with
      | some _ => { c with readerPC := .clearFlag }
      | none => { c with readerPC := .crashed }
  | .clearFlag =>
      { c with st := { c.st with is_server_running := false }, readerPC := .emitTerm }
  | .emitTerm =>
      { c with st := { c.st with events := c.st.events ++ [Event.terminated c.exitCode] },
               readerPC := .done }
  | .done => c
  | .crashed => c

/-- Run a schedule: `false` steps the stop thread, `true` steps the reader. -/
def runSched (sched : List Bool) (c : RaceConfig) : RaceConfig :=
  sched.foldl (fun c tid => if tid then readerStep c else mainStep c) c

/-- Initial racing configuration: the child has exited on its own with code
0, the reader has just left its read loop (so has not yet cleared the flag),
and `stop_server` is invoked. -/
def raceInit : RaceConfig :=
  { st := { is_server_running := true, server_process := some 1, events := [], hostAlive := true },
    mainPC := .idle, readerPC := .closeStream, exitCode := 0 }

/-! ## Coarse lifecycle transition system for the at-most-one-process
invariant

The GUI callbacks `start_server` and `stop_server` both run on threads that
mutate the tracked state only under the guards at gui.py:356 and
gui.py:390; a child becomes tracked only by a successful spawn, and the
reader thread clears the running flag only after its child's exit has been
observed by `wait()` (gui.py:384-385).  `procs` lists every child ever
spawned (pid = index). -/

/-- Status of one spawned child process. -/
inductive PStatus where
  | alive
  | exited : Int → PStatus
deriving DecidableEq, Repr

/-- Global lifecycle state: all children ever spawned, the running flag and
the tracked handle. -/
structure GState where
  procs : List PStatus
  running : Bool
  tracked : Option Nat
deriving DecidableEq, Repr

/-- Lifecycle transitions.  `startSpawn`/`startWhileRunning`/`startSpawnFail`
are the three outcomes of `start_server` (guard gui.py:356, spawn
gui.py:366-374); `childExit` is an autonomous exit of a child; `readerDone`
is the reader epilogue clearing the flag after observing the exit
(gui.py:384-385); `stopRun` is `stop_server` on a tracked running process:
`terminate()`/`kill()` end the child and the flag and handle are cleared
(gui.py:392-401). -/
inductive GStep : GState → GState → Prop
  | startSpawn (g : GState) (h : g.running = false) :
      GStep g ⟨g.procs ++ [.alive], true, some g.procs.length⟩
  | startWhileRunning (g : GState) (h : g.running = true) : GStep g g
  | startSpawnFail (g : GState) (h : g.running = false) : GStep g g
  | childExit (g : GState) (i : Nat) (code : Int) (h : g.procs[i]? = some .alive) :
      GStep g ⟨g.procs.set i (.exited code), g.running, g.tracked⟩
  | readerDone (g : GState) (i : Nat) (code : Int) (ht : g.tracked = some i)
      (he : g.procs[i]? = some (.exited code)) :
      GStep g ⟨g.procs, false, g.tracked⟩
  | stopRun (g : GState) (i : Nat) (code : Int) (h : g.running = true)
      (ht : g.tracked = some i) :
      GStep g ⟨g.procs.set i (.exited code), false, none⟩

/-- The initial lifecycle state (gui.py:114-115). -/
def gInit : GState := ⟨[], false, none⟩

/-- Reachability of lifecycle states. -/
def GReachable (g : GState) : Prop :=
  Relation.ReflTransGen GStep gInit g

/-- Every alive child is the tracked one, and the flag is set while any
child is alive. -/
def GInv (g : GState) : Prop :=
  ∀ i, g.procs[i]? = some .alive → g.running = true ∧ g.tracked = some i

/-- The value a changed `config_vars` takes after the user edits one
recognized key in the settings tab: key `k` now holds `v`, every other key
holds what `load_settings` read from the file. -/
def changedVars (file : List String) (k : String) (v : ConfigVal) : Vars :=
  fun k2 => if k2 == k then v else (load_settings (some file)).1 k2

/-! ## Helper lemmas -/

theorem recognized_eq_true_iff {k : String} : recognized k = true ↔ k ∈ envKeys := by
  simp only [recognized, List.contains]
  exact List.elem_iff

theorem countTerminated_append (a b : List Event) :
    countTerminated (a ++ b) = countTerminated a + countTerminated b := by
  simp [countTerminated, List.filter_append]

theorem countTerminated_outLines (ls : List String) :
    countTerminated (ls.map (fun l => Event.outLine (pstrip l))) = 0 := by
  induction ls with
  | nil => rfl
  | cons l t ih => simp [countTerminated, List.filter_cons] at ih ⊢

theorem save_settings_getElem?_left (vars : Vars) (lines : List String) (i : Nat) (l : String)
    (h : lines[i]? = some l) :
    (save_settings vars lines)[i]? = some (rewriteLine vars l) := by
  have hlen : i < lines.length := (List.getElem?_eq_some_iff.mp h).1
  rw [save_settings,
    List.getElem?_append_left (by simp only [List.length_map]; exact hlen),
    List.getElem?_map, h]
  rfl

theorem save_settings_drop (vars : Vars) (lines : List String) :
    (save_settings vars lines).drop lines.length =
      (envKeys.filter (fun k => !isProcessed lines k)).map (fun k => mkLine k (vars k)) := by
  rw [save_settings, List.drop_left' (List.length_map lines _)]

/-! ## Claim theorems -/

/-- Claim C1 (code_bug): the claim states that when an explicit `stop()`
races the child's autonomous exit, the terminal bookkeeping fires exactly
once.  The code violates it: in the interleaving where `stop_server` runs
to completion (seven statements) before the reader thread reaches
`self.server_process.stdout.close()`, the handle is already `None`, the
reader dies on `AttributeError`, and zero exit-code terminal events are
ever emitted — while the reader scheduled uninterrupted emits exactly one. -/
theorem lost_terminal_event_on_stop_exit_race :
    countTerminated (runSched [false, false, false, false, false, false, false, true]
      raceInit).st.events = 0 ∧
    (runSched [false, false, false, false, false, false, false, true] raceInit).readerPC =
      ReaderPC.crashed ∧
    countTerminated (runSched [true, true, true, true] raceInit).st.events = 1 := by
  decide

/-- Claim C2 counterexample: the claim states that after the grace period
elapses `stop()` escalates to a forced kill `and then waits unboundedly for
the terminal event`.  At this concrete input (running process, child not
terminating within the grace period) the ordered action trace of
`stop_server` ends with the kill: no wait of any kind follows it. -/
theorem stop_no_wait_after_kill_cex :
    (stop_server false ⟨true, some 1, [], true⟩).2 =
      [StopAction.termReq, StopAction.waitGrace 5 true, StopAction.kill] ∧
    (stop_server false ⟨true, some 1, [], true⟩).2.getLast? = some StopAction.kill := by
  decide

/-- Claim C2 (amended): for every call to `stop()` while a process is
tracked as running, the operation sends a graceful termination request,
waits up to the 5-second grace period for termination, and escalates to a
forced kill if the grace period elapses, performing no further wait after
the kill; after `stop()` returns, the process is no longer tracked as
running and the handle is released. -/
theorem stop_escalation_and_release :
    ∀ (b : Bool) (s : SupState) (p : Nat),
      s.is_server_running = true → s.server_process = some p →
      ((stop_server b s).1.is_server_running = false ∧
       (stop_server b s).1.server_process = none ∧
       (stop_server b s).2 =
         (if b then [StopAction.termReq, StopAction.waitGrace 5 false]
          else [StopAction.termReq, StopAction.waitGrace 5 true, StopAction.kill])) := by
  intro b s p h1 h2
  cases b <;> simp [stop_server, h1, h2]

theorem stop_escalation_and_release_witness :
    (stop_server false ⟨true, some 2, [], true⟩).1.is_server_running = false ∧
    (stop_server false ⟨true, some 2, [], true⟩).1.server_process = none ∧
    (stop_server false ⟨true, some 2, [], true⟩).2 =
      (if false then [StopAction.termReq, StopAction.waitGrace 5 false]
       else [StopAction.termReq, StopAction.waitGrace 5 true, StopAction.kill]) :=
  stop_escalation_and_release false ⟨true, some 2, [], true⟩ 2 rfl rfl

/-- Claim C5: when no process is tracked as running, a spawn failure in
`start()` is reported synchronously to the caller (the uncaught exception
of gui.py:366 propagates out of the call, modelled as the returned
`Except.error`), the supervisor never terminates the hosting process, and
immediately after `start()` the running flag is true iff the spawn
succeeded. -/
theorem start_spawn_failure_sync :
    ∀ (sp : Except String Nat) (s : SupState), s.is_server_running = false →
      ((∀ msg, sp = Except.error msg → (start_server sp s).2 = Except.error msg) ∧
       (start_server sp s).1.is_server_running = spawnOk sp ∧
       (start_server sp s).1.hostAlive = s.hostAlive) := by
  intro sp s h
  cases sp <;> simp [start_server, h, spawnOk]

theorem start_spawn_failure_sync_witness :
    (start_server (Except.error "no exe") ⟨false, none, [], true⟩).2 = Except.error "no exe" ∧
    (start_server (Except.error "no exe") ⟨false, none, [], true⟩).1.is_server_running =
      spawnOk (Except.error "no exe") ∧
    (start_server (Except.error "no exe") ⟨false, none, [], true⟩).1.hostAlive = true := by
  have h := start_spawn_failure_sync (Except.error "no exe") ⟨false, none, [], true⟩ rfl
  exact ⟨h.1 "no exe" rfl, h.2.1, h.2.2⟩

theorem read_server_output_run (ls : List String) (c : Int) (s : SupState) (p : Nat)
    (hp : s.server_process = some p) (hls : ∀ l ∈ ls, l ≠ "") :
    (read_server_output ls c s).is_server_running = false ∧
    (read_server_output ls c s).events.drop s.events.length =
      ls.map (fun l => Event.outLine (pstrip l)) ++ [Event.terminated c] := by
  have hdeliv : ls.takeWhile (fun l => l != "") = ls := by
    rw [List.takeWhile_eq_self_iff]
    intro l hl
    simpa using hls l hl
  have hout : (read_server_output ls c s).events =
      s.events ++ (ls.map (fun l => Event.outLine (pstrip l)) ++ [Event.terminated c]) := by
    simp [read_server_output, hp, hdeliv, List.append_assoc]
  have hflag : (read_server_output ls c s).is_server_running = false := by
    simp [read_server_output, hp]
  refine ⟨hflag, ?_⟩
  rw [hout, List.drop_left]

/-- Claim C3: for a child that exits on its own (no `stop()` call
interfering), the reader task, upon end of stream, waits for the process,
retrieves the exit code, clears the running flag (so `isRunning()` becomes
false without `stop()`), and emits exactly one terminal status event
carrying that exit code, after the forwarded output lines. -/
theorem autonomous_exit_single_terminal_event :
    ∀ (ls : List String) (c : Int) (s : SupState) (p : Nat),
      s.server_process = some p → (∀ l ∈ ls, l ≠ "") →
      ((read_server_output ls c s).is_server_running = false ∧
       (read_server_output ls c s).events.drop s.events.length =
         ls.map (fun l => Event.outLine (pstrip l)) ++ [Event.terminated c] ∧
       countTerminated ((read_server_output ls c s).events.drop s.events.length) = 1) := by
  intro ls c s p hp hls
  have h := read_server_output_run ls c s p hp hls
  refine ⟨h.1, h.2, ?_⟩
  rw [h.2, countTerminated_append, countTerminated_outLines]
  rfl

theorem autonomous_exit_single_terminal_event_witness :
    (read_server_output ["x\n"] 3 ⟨true, some 1, [], true⟩).is_server_running = false ∧
    countTerminated ((read_server_output ["x\n"] 3 ⟨true, some 1, [], true⟩).events.drop 0) = 1 := by
  have h := autonomous_exit_single_terminal_event ["x\n"] 3 ⟨true, some 1, [], true⟩ 1 rfl
    (by decide)
  exact ⟨h.1, h.2.2⟩

/-- Claim C7: output lines are delivered to the observer in the order the
child produced them (each stripped, tagged with the constant `[SERVER] `
prefix), and the terminal status event is delivered strictly after the last
output line: the events the reader appends are exactly the per-line
deliveries in stream order followed by the terminal event in final
position. -/
theorem output_order_then_terminal :
    ∀ (ls : List String) (c : Int) (s : SupState) (p : Nat),
      s.server_process = some p → (∀ l ∈ ls, l ≠ "") →
      ((read_server_output ls c s).events.drop s.events.length =
         ls.map (fun l => Event.outLine (pstrip l)) ++ [Event.terminated c] ∧
       ((read_server_output ls c s).events.drop s.events.length).getLast? =
         some (Event.terminated c)) := by
  intro ls c s p hp hls
  have h := read_server_output_run ls c s p hp hls
  refine ⟨h.2, ?_⟩
  rw [h.2]
  exact List.getLast?_concat _

theorem output_order_then_terminal_witness :
    (read_server_output ["a\n", "b\n", "c\n"] 0 ⟨true, some 1, [], true⟩).events.drop 0 =
      [Event.outLine "a", Event.outLine "b", Event.outLine "c", Event.terminated 0] := by
  have h := (output_order_then_terminal ["a\n", "b\n", "c\n"] 0 ⟨true, some 1, [], true⟩ 1 rfl
    (by decide)).1
  exact h.trans (by decide)

/-- The backing file of the C4 counterexample: a comment, a blank line, an
unrecognized key, a recognized boolean key in non-canonical form, and a
recognized string key. -/
def cexFile : List String :=
  ["# comment\n", "\n", "FOO=bar\n", "DEBUG_LOGGING = TRUE\n", "API_ENDPOINT=x\n"]

/-- Claim C4 counterexample: load `cexFile`, change the one recognized key
`API_ENDPOINT` to `y`, save.  The claim says only that key is updated; in
fact the untouched recognized line `DEBUG_LOGGING = TRUE\n` (whose key is
not the changed one) is rewritten to the canonical `DEBUG_LOGGING=true\n`,
and the eight recognized keys absent from the file are appended, growing
the file from 5 to 13 lines. -/
theorem config_roundtrip_updates_other_lines_cex :
    (save_settings (changedVars cexFile "API_ENDPOINT" (ConfigVal.sVal "y")) cexFile)[3]? =
      some "DEBUG_LOGGING=true\n" ∧
    cexFile[3]? = some "DEBUG_LOGGING = TRUE\n" ∧
    lineKey "DEBUG_LOGGING = TRUE\n" ≠ "API_ENDPOINT" ∧
    (save_settings (changedVars cexFile "API_ENDPOINT" (ConfigVal.sVal "y")) cexFile).length = 13 := by
  decide

/-- Claim C4 (amended): loading and then saving after changing one
recognized key preserves unrecognized key lines, comment lines and blank
lines verbatim in place; every recognized key line is rewritten in place in
canonical `KEY=value` form with its current variable value (the changed
key's new value, the loaded value for the others); and the recognized keys
absent from the file are appended at the end. -/
theorem config_roundtrip_preservation :
    ∀ (file : List String) (k : String) (v : ConfigVal),
      ((∀ (i : Nat) (l : String), file[i]? = some l → (isKVLine l && recognized (lineKey l)) = false →
          (save_settings (changedVars file k v) file)[i]? = some l) ∧
       (∀ (i : Nat) (l : String), file[i]? = some l → (isKVLine l && recognized (lineKey l)) = true →
          (save_settings (changedVars file k v) file)[i]? =
            some (mkLine (lineKey l) (changedVars file k v (lineKey l)))) ∧
       (save_settings (changedVars file k v) file).drop file.length =
         (envKeys.filter (fun k2 => !isProcessed file k2)).map
           (fun k2 => mkLine k2 (changedVars file k v k2))) := by
  intro file k v
  refine ⟨?_, ?_, save_settings_drop _ file⟩
  · intro i l hi hcond
    rw [save_settings_getElem?_left _ file i l hi]
    simp [rewriteLine, hcond]
  · intro i l hi hcond
    rw [save_settings_getElem?_left _ file i l hi]
    simp [rewriteLine, hcond]

theorem config_roundtrip_preservation_witness :
    (save_settings (changedVars cexFile "API_ENDPOINT" (ConfigVal.sVal "y")) cexFile)[2]? =
      some "FOO=bar\n" :=
  (config_roundtrip_preservation cexFile "API_ENDPOINT" (ConfigVal.sVal "y")).1 2 "FOO=bar\n"
    (by decide) (by decide)

/-- Claim C8: a boolean-typed key serializes as the literal `true`/`false`
(gui.py:313-314), and loading interprets the stored string
case-insensitively: the loaded variable is true iff the stored value equals
`true` ignoring case (gui.py:288). -/
theorem bool_key_serialization :
    ∀ (file : List String) (k : String), isBoolKey k = true →
      ((∀ b : Bool, mkLine k (ConfigVal.bVal b) = k ++ "=" ++ (if b then "true" else "false") ++ "\n") ∧
       ((load_settings (some file)).1 k = ConfigVal.bVal true ↔
         eqIgnoringCase (dictGet (currentValues file) k "") "true" = true)) := by
  intro file k hk
  constructor
  · intro b
    cases b <;> rfl
  · have hlow : lowerStr "true" = "true" := by decide
    simp [load_settings, hk, eqIgnoringCase, hlow]

theorem bool_key_serialization_witness :
    mkLine "DEBUG_LOGGING" (ConfigVal.bVal true) =
      "DEBUG_LOGGING" ++ "=" ++ (if true then "true" else "false") ++ "\n" ∧
    ((load_settings (some ["DEBUG_LOGGING=TrUe\n"])).1 "DEBUG_LOGGING" = ConfigVal.bVal true ↔
      eqIgnoringCase (dictGet (currentValues ["DEBUG_LOGGING=TrUe\n"]) "DEBUG_LOGGING" "") "true" =
        true) := by
  have h := bool_key_serialization ["DEBUG_LOGGING=TrUe\n"] "DEBUG_LOGGING" (by decide)
  exact ⟨h.1 true, h.2⟩

/-- Claim C9: for every initial file state, after a save the file contains
a canonical `KEY=value` line for each of the ten recognized keys: a
key-value line whose key is recognized is rewritten in place, and the
recognized keys absent from the file are appended at the end, in definition
order, with their current values. -/
theorem save_contains_all_keys :
    ∀ (vars : Vars) (lines : List String) (k : String), k ∈ envKeys →
      (mkLine k (vars k) ∈ save_settings vars lines ∧
       (∀ (i : Nat) (l : String), lines[i]? = some l → isKVLine l = true → lineKey l = k →
          (save_settings vars lines)[i]? = some (mkLine k (vars k))) ∧
       (save_settings vars lines).drop lines.length =
         (envKeys.filter (fun k2 => !isProcessed lines k2)).map
           (fun k2 => mkLine k2 (vars k2))) := by
  intro vars lines k hk
  have hrec : recognized k = true := recognized_eq_true_iff.mpr hk
  refine ⟨?_, ?_, save_settings_drop vars lines⟩
  · by_cases hp : isProcessed lines k = true
    · rcases List.any_eq_true.mp hp with ⟨l, hl, hcond⟩
      rcases Bool.and_eq_true_iff.mp hcond with ⟨hkv, hkeyb⟩
      have hkey : lineKey l = k := by simpa using hkeyb
      rw [save_settings]
      refine List.mem_append.mpr (Or.inl (List.mem_map.mpr ⟨l, hl, ?_⟩))
      simp [rewriteLine, hkv, hkey, hrec]
    · have hp' : isProcessed lines k = false := by simpa using hp
      rw [save_settings]
      refine List.mem_append.mpr (Or.inr (List.mem_map.mpr ⟨k, ?_, rfl⟩))
      exact List.mem_filter.mpr ⟨hk, by simp [hp']⟩
  · intro i l hi hkv hkey
    rw [save_settings_getElem?_left vars lines i l hi]
    simp [rewriteLine, hkv, hkey, hrec]

theorem save_contains_all_keys_witness :
    mkLine "AUTH_TOKEN" ((fun _ => ConfigVal.sVal "v") "AUTH_TOKEN") ∈
      save_settings (fun _ => ConfigVal.sVal "v") [] :=
  (save_contains_all_keys (fun _ => ConfigVal.sVal "v") [] "AUTH_TOKEN" (by decide)).1

theorem mem_foldl_loadLine (file : List String) :
    ∀ (acc : List (String × String)) (p : String × String),
      p ∈ file.foldl loadLine acc →
      p ∈ acc ∨ ∃ l, l ∈ file ∧ isKVLine l = true ∧ p.1 = lineKey l := by
  induction file with
  | nil =>
      intro acc p h
      exact Or.inl h
  | cons l ls ih =>
      intro acc p h
      rw [List.foldl_cons] at h
      rcases ih (loadLine acc l) p h with h1 | ⟨l', hl', hkv, hkeyp⟩
      · unfold loadLine at h1
        by_cases hkvl : isKVLine l = true
        · rw [if_pos hkvl] at h1
          rcases List.mem_append.mp h1 with h2 | h2
          · exact Or.inl h2
          · have hp : p = (lineKey l, lineVal l) := by simpa using h2
            exact Or.inr ⟨l, List.mem_cons_self l ls, hkvl, by rw [hp]⟩
        · rw [if_neg hkvl] at h1
          exact Or.inl h1
      · exact Or.inr ⟨l', List.mem_cons_of_mem l hl', hkv, hkeyp⟩

theorem dictGet_of_not_processed {file : List String} {k : String}
    (h : isProcessed file k = false) (dflt : String) :
    dictGet (currentValues file) k dflt = dflt := by
  have hnil : (currentValues file).filter (fun p => p.1 == k) = [] := by
    rw [List.filter_eq_nil_iff]
    intro p hp hpk
    rcases mem_foldl_loadLine file [] p hp with h1 | ⟨l, hl, hkv, hkeyp⟩
    · simp at h1
    · have hkey : lineKey l = k := by
        have : p.1 = k := by simpa using hpk
        rw [← hkeyp, this]
      have : isProcessed file k = true :=
        List.any_eq_true.mpr ⟨l, hl, by simp [hkv, hkey]⟩
      rw [h] at this
      exact absurd this (by simp)
  rw [dictGet, hnil]
  rfl

/-- Claim C10: a missing backing file is reported only as a warning, and an
absent recognized key loads as `false` when boolean-typed and as the empty
string otherwise — both for a missing file and for a file that simply does
not bind the key. -/
theorem load_defaults_on_missing :
    ∀ (k : String), recognized k = true →
      ((load_settings none).2 = [LoadMsg.warnMissing] ∧
       (load_settings none).1 k =
         (if isBoolKey k then ConfigVal.bVal false else ConfigVal.sVal "") ∧
       (∀ file : List String, isProcessed file k = false →
          (load_settings (some file)).1 k =
            (if isBoolKey k then ConfigVal.bVal false else ConfigVal.sVal ""))) := by
  intro k hrec
  have hfalse : (lowerStr "" == "true") = false := by decide
  refine ⟨rfl, ?_, ?_⟩
  · show (if isBoolKey k then ConfigVal.bVal (lowerStr "" == "true") else ConfigVal.sVal "") =
      (if isBoolKey k then ConfigVal.bVal false else ConfigVal.sVal "")
    rw [hfalse]
  · intro file hfp
    have hval := dictGet_of_not_processed hfp ""
    show (if isBoolKey k then
            ConfigVal.bVal (lowerStr (dictGet (currentValues file) k "") == "true")
          else ConfigVal.sVal (dictGet (currentValues file) k "")) =
      (if isBoolKey k then ConfigVal.bVal false else ConfigVal.sVal "")
    rw [hval, hfalse]

theorem load_defaults_on_missing_witness :
    (load_settings none).2 = [LoadMsg.warnMissing] ∧
    (load_settings none).1 "AUTH_TOKEN" =
      (if isBoolKey "AUTH_TOKEN" then ConfigVal.bVal false else ConfigVal.sVal "") ∧
    (load_settings (some ["# only a comment\n"])).1 "AUTH_TOKEN" =
      (if isBoolKey "AUTH_TOKEN" then ConfigVal.bVal false else ConfigVal.sVal "") := by
  have h := load_defaults_on_missing "AUTH_TOKEN" (by decide)
  exact ⟨h.1, h.2.1, h.2.2 ["# only a comment\n"] (by decide)⟩

theorem gInv_init : GInv gInit := by
  intro i h
  simp [gInit] at h

theorem gInv_step {g g' : GState} (hstep : GStep g g') (hinv : GInv g) : GInv g' := by
  cases hstep with
  | startSpawn h =>
      intro i hi
      by_cases hlt : i < g.procs.length
      · rw [List.getElem?_append_left hlt] at hi
        have := (hinv i hi).1
        rw [h] at this
        exact absurd this (by simp)
      · have hge : g.procs.length ≤ i := Nat.le_of_not_lt hlt
        rw [List.getElem?_append_right hge] at hi
        cases hd : i - g.procs.length with
        | zero =>
            have hieq : i = g.procs.length := by omega
            exact ⟨rfl, by rw [hieq]⟩
        | succ n =>
            rw [hd] at hi
            simp at hi
  | startWhileRunning h => exact hinv
  | startSpawnFail h => exact hinv
  | childExit i code h =>
      intro j hj
      have hilen : i < g.procs.length := (List.getElem?_eq_some_iff.mp h).1
      by_cases hij : i = j
      · subst hij
        rw [List.getElem?_set_self hilen] at hj
        simp at hj
      · rw [List.getElem?_set_ne hij] at hj
        exact hinv j hj
  | readerDone i code ht he =>
      intro j hj
      have h2 := (hinv j hj).2
      rw [ht] at h2
      have hij : i = j := Option.some.inj h2
      rw [← hij, he] at hj
      simp at hj
  | stopRun i code h ht =>
      intro j hj
      have hjlen : j < (g.procs.set i (PStatus.exited code)).length :=
        (List.getElem?_eq_some_iff.mp hj).1
      rw [List.length_set] at hjlen
      by_cases hij : i = j
      · subst hij
        rw [List.getElem?_set_self hjlen] at hj
        simp at hj
      · rw [List.getElem?_set_ne hij] at hj
        have h2 := (hinv j hj).2
        rw [ht] at h2
        exact absurd (Option.some.inj h2) hij

theorem gInv_reachable {g : GState} (h : GReachable g) : GInv g := by
  induction h with
  | refl => exact gInv_init
  | tail _ hstep ih => exact gInv_step hstep ih

/-- Claim C6: calling `start()` while a process is tracked as running is a
no-op — no spawn, no output, state unchanged (gui.py:356) — and in every
reachable lifecycle state at most one child process is alive. -/
theorem at_most_one_active_and_start_noop :
    (∀ (sp : Except String Nat) (s : SupState), s.is_server_running = true →
        start_server sp s = (s, Except.ok ())) ∧
    (∀ g : GState, GReachable g → ∀ (i j : Nat),
        g.procs[i]? = some PStatus.alive → g.procs[j]? = some PStatus.alive → i = j) := by
  constructor
  · intro sp s h
    simp [start_server, h]
  · intro g hg i j hi hj
    have h1 := (gInv_reachable hg i hi).2
    have h2 := (gInv_reachable hg j hj).2
    exact Option.some.inj (h1.symm.trans h2)

theorem at_most_one_active_and_start_noop_witness :
    start_server (Except.ok 7) ⟨true, some 1, [], true⟩ = (⟨true, some 1, [], true⟩, Except.ok ()) ∧
    (0 : Nat) = 0 := by
  refine ⟨at_most_one_active_and_start_noop.1 (Except.ok 7) ⟨true, some 1, [], true⟩ rfl, ?_⟩
  exact at_most_one_active_and_start_noop.2 ⟨[PStatus.alive], true, some 0⟩
    (Relation.ReflTransGen.single (GStep.startSpawn gInit rfl)) 0 0 rfl rfl

end ZaiGui
